import Mathlib

/-!
Shallow embedding of the search-term data resolution pipeline of the
zero-click-search demo (three Streamlit scripts, v1/v2/v3).  The data
model follows the values the scripts build: a dataset of
(Search Term, Month, Search Volume) rows, a case-insensitive local
filter, a column-presence check on uploads, a guarded remote trends
lookup, and the CSV write/read-back at startup.
-/

/-- A row of the search-volume table: `Search Term`, `Month` (YYYY-MM),
`Search Volume`.  Mirrors one row of `df_search` in v2/v3. -/
structure VolumeRecord where
  term : String
  period : String
  value : Nat
deriving DecidableEq, Repr

/-- The backing table of the local provider (`df_search`): a list of rows
in dataframe order. -/
abbrev Dataset := List VolumeRecord

/-- Outcome of resolving one term: a series with its source tag, a clean
miss, or a provider failure with its message. -/
inductive ResolutionResult where
  | Found : List VolumeRecord → String → ResolutionResult
  | NotFound : ResolutionResult
  | ProviderError : String → ResolutionResult
deriving DecidableEq, Repr

/-- Python `str.lower()` on the ASCII terms the scripts handle:
lowercase every character. -/
def pyLower (s : String) : String := String.mk (s.data.map Char.toLower)

/-- The case-insensitive row filter of v2 line 76 / v3 line 120:
`df_search[df_search["Search Term"].str.lower() == selected_term.lower()]`.
Row order of the dataframe is preserved; no sort is applied. -/
def localFilter (ds : Dataset) (term : String) : List VolumeRecord :=
  ds.filter (fun r => pyLower r.term == pyLower term)

/-- The local provider as v2 lines 75-94 / v3 lines 119-138 behave:
filter case-insensitively, chart the rows if any matched (`Found`),
otherwise show the no-data warning (`NotFound`). -/
def localLookup (ds : Dataset) (term : String) : ResolutionResult :=
  if (localFilter ds term).isEmpty then ResolutionResult.NotFound
  else ResolutionResult.Found (localFilter ds term) "local"

/-- The v2 sample dataset (`sample_data`, v2 lines 45-49). -/
def sampleDataV2 : Dataset :=
  [⟨"best laptops", "2025-01", 120000⟩, ⟨"best laptops", "2025-02", 130000⟩,
   ⟨"best laptops", "2025-03", 125000⟩, ⟨"python tutorial", "2025-01", 80000⟩,
   ⟨"python tutorial", "2025-02", 85000⟩, ⟨"python tutorial", "2025-03", 90000⟩,
   ⟨"cheap flights", "2025-01", 200000⟩, ⟨"cheap flights", "2025-02", 210000⟩,
   ⟨"cheap flights", "2025-03", 190000⟩]

/-- The v3 sample dataset (`sample_data`, v3 lines 53-57). -/
def sampleDataV3 : Dataset :=
  [⟨"best laptops", "2025-01", 120000⟩, ⟨"best laptops", "2025-02", 130000⟩,
   ⟨"best laptops", "2025-03", 125000⟩, ⟨"python tutorial", "2025-01", 80000⟩,
   ⟨"python tutorial", "2025-02", 85000⟩, ⟨"python tutorial", "2025-03", 90000⟩]

/-- Membership in the local filter: a row is kept iff it is in the dataset
and its term matches the query up to lowercasing. -/
theorem mem_localFilter {ds : Dataset} {term : String} {r : VolumeRecord} :
    r ∈ localFilter ds term ↔ r ∈ ds ∧ pyLower r.term = pyLower term := by
  simp [localFilter, List.mem_filter]

theorem localLookup_found {ds : Dataset} {term : String}
    (h : localFilter ds term ≠ []) :
    localLookup ds term = ResolutionResult.Found (localFilter ds term) "local" := by
  simp [localLookup, List.isEmpty_iff, h]

/-- The dataframe `pytrends.interest_over_time()` returns (v3 line 84):
its column names (the queried keywords) and its rows, each a date index
entry (ISO `YYYY-MM-DD`) with the values aligned with `columns`. -/
structure TrendsData where
  columns : List String
  rows : List (String × List Nat)
deriving DecidableEq, Repr

/-- Outcome of the network call `build_payload` + `interest_over_time`
inside the `try` of v3 lines 82-84: either a dataframe, or an exception
`e` caught by the `except` at v3 line 109. -/
inductive RemoteOutcome where
  | success : TrendsData → RemoteOutcome
  | failure : String → RemoteOutcome
deriving DecidableEq, Repr

/-- `dt.strftime("%Y-%m")` on an ISO date string (v3 line 88): the month
bucket is the first seven characters. -/
def monthBucket (d : String) : String := String.mk (d.data.take 7)

/-- The series built at v3 lines 86-89: select the term column, reindex,
format the month, tag every row with the queried term. -/
def remoteSeries (td : TrendsData) (term : String) : List VolumeRecord :=
  let j := td.columns.indexOf term
  td.rows.map (fun dr => ⟨term, monthBucket dr.1, dr.2.getD j 0⟩)

/-- The remote provider as v3 lines 80-112 behave.  `client` is the
module-level `pytrends` value: `none` when `TrendReq` raised at init
(v3 lines 11-15).  With no client, the `elif` at v3 line 111 shows an
error.  With a client, an exception from the fetch is caught at line 109
and shown as an error; a successful fetch yields the chart (`Found`)
when the term column is present and the frame is non-empty (line 85),
and the no-data warning (`NotFound`, line 108) otherwise. -/
def remoteLookup (client : Option Unit) (fetch : RemoteOutcome)
    (term : String) : ResolutionResult :=
  match client with
  | Option.none => ResolutionResult.ProviderError
      "Google Trends integration unavailable. Please check your connection or try again later."
  | Option.some _ =>
    match fetch with
    | RemoteOutcome.failure e =>
        ResolutionResult.ProviderError ("Error fetching Google Trends data: " ++ e)
    | RemoteOutcome.success td =>
        if term ∈ td.columns ∧ td.rows ≠ [] then
          ResolutionResult.Found (remoteSeries td term) "remote"
        else ResolutionResult.NotFound

/-- An uploaded CSV as `pd.read_csv(uploaded_file)` yields it
(v2 line 121 / v3 line 144): its column names and its rows.  Row-level
types are never validated by the scripts, so rows are modelled directly
as records. -/
structure UploadTable where
  columns : List String
  rows : List VolumeRecord
deriving DecidableEq, Repr

/-- The three required columns of v2 line 122 / v3 line 145. -/
def requiredColumns : List String := ["Search Term", "Month", "Search Volume"]

/-- The error message shown at v2 line 127 when a required column is
missing. -/
def schemaErrorMsg : String :=
  "Uploaded CSV must contain \x27Search Term\x27, \x27Month\x27, and \x27Search Volume\x27 columns."

/-- The upload handler of v2 lines 120-127 / v3 lines 143-146: if every
required column is present, `df_search = df_uploaded` (wholesale
replacement); otherwise the error message is shown and `df_search` is
left untouched.  Returns the dataset after the handler and the error
message, if any. -/
def uploadLoad (current : Dataset) (up : UploadTable) :
    Dataset × Option String :=
  if requiredColumns.all (fun c => c ∈ up.columns) then (up.rows, Option.none)
  else (current, Option.some schemaErrorMsg)

/-- Outcome of `pd.read_csv("search_volume_data.csv")` at startup
(v2 line 57 / v3 line 65): the parsed table, a `FileNotFoundError`, or
any other exception (e.g. a parse error on a corrupt file). -/
inductive ReadCsvOutcome where
  | ok : Dataset → ReadCsvOutcome
  | fileNotFound : ReadCsvOutcome
  | otherError : String → ReadCsvOutcome
deriving DecidableEq, Repr

/-- Result of the startup load: a dataset together with whether the
fallback warning was shown, or an uncaught exception aborting the
render. -/
inductive StartupResult where
  | loaded : Dataset → Bool → StartupResult
  | crashed : String → StartupResult
deriving DecidableEq, Repr

/-- The startup load of v2 lines 55-60 / v3 lines 63-68: the `try`
around `pd.read_csv` catches only `FileNotFoundError` (falling back to
`sample_data` with `st.error`); every other exception propagates. -/
def startupLoad (sample : Dataset) (read : ReadCsvOutcome) : StartupResult :=
  match read with
  | ReadCsvOutcome.ok t => StartupResult.loaded t false
  | ReadCsvOutcome.fileNotFound => StartupResult.loaded sample true
  | ReadCsvOutcome.otherError e => StartupResult.crashed e

/-- Modelled from the spec: `TermVolumeResolver.resolve` of section 4.4.
No resolver component exists in the scripts — v3 runs the remote section
(lines 80-112) and the local section (lines 114-138) one after the
other, so a remote failure never stops the local attempt; the spec
abstracts this into an ordered cascade that tries each provider in
turn, short-circuits on the first `Found`, and continues past
`NotFound` and `ProviderError`, returning `NotFound` when exhausted. -/
def resolve (term : String) : List (String → ResolutionResult) → ResolutionResult
  | [] => ResolutionResult.NotFound
  | p :: ps =>
    match p term with
    | ResolutionResult.Found s tag => ResolutionResult.Found s tag
    | _ => resolve term ps

/-- The v2 render pass, in source order: the chart section (lines 74-96)
computes and displays `localLookup` of the dataset as loaded at the top
of the script, and only afterwards does the upload section
(lines 117-127) possibly reassign `df_search`.  Returns the displayed
resolution and the dataset variable as the pass ends. -/
def v2RenderPass (ds0 : Dataset) (term : String) (upload : Option UploadTable) :
    ResolutionResult × Dataset :=
  let displayed := localLookup ds0 term
  let dsAfter :=
    match upload with
    | Option.none => ds0
    | Option.some up => (uploadLoad ds0 up).1
  (displayed, dsAfter)

/-- The header `df_search.to_csv(..., index=False)` writes
(v2 line 53 / v3 line 61). -/
def csvHeader : String := "Search Term,Month,Search Volume"

/-- Model of `pandas.DataFrame.to_csv(..., index=False)` restricted to
tables whose string fields contain no comma, quote or newline (true of
the sample datasets): header line, then one comma-joined line per row,
each terminated by a newline. -/
def toCsv (ds : Dataset) : String :=
  csvHeader ++ "\n" ++
    String.join (ds.map (fun r =>
      r.term ++ "," ++ r.period ++ "," ++ toString r.value ++ "\n"))

/-- Split a character list at every occurrence of the separator `c`. -/
def splitOnChar (c : Char) : List Char → List (List Char)
  | [] => [[]]
  | a :: as =>
    match splitOnChar c as with
    | [] => if a == c then [[], []] else [[a]]
    | h :: t => if a == c then [] :: h :: t else (a :: h) :: t

/-- Parse a decimal numeral, as `pd.read_csv` infers an integer
column. -/
def parseNatAux : List Char → Nat → Option Nat
  | [], acc => Option.some acc
  | c :: cs, acc =>
    if c.isDigit then parseNatAux cs (acc * 10 + (c.toNat - 48))
    else Option.none

def parseNatChars : List Char → Option Nat
  | [] => Option.none
  | l => parseNatAux l 0

/-- Parse one CSV body line into a record; the volume column must be a
numeral. -/
def parseRow (line : List Char) : Option VolumeRecord :=
  match splitOnChar (Char.ofNat 44) line with
  | [t, m, v] => (parseNatChars v).map (fun n => ⟨String.mk t, String.mk m, n⟩)
  | _ => Option.none

def parseRows : List (List Char) → Option (List VolumeRecord)
  | [] => Option.some []
  | l :: ls =>
    match parseRow l, parseRows ls with
    | Option.some r, Option.some rs => Option.some (r :: rs)
    | _, _ => Option.none

/-- Model of `pandas.read_csv` on such a file: first line is the column
header, blank lines are skipped (pandas defaults), each remaining line
parses into one row.  Returns the column names and the rows. -/
def parseCsv (s : String) : Option (List String × List VolumeRecord) :=
  match splitOnChar (Char.ofNat 10) s.data with
  | [] => Option.none
  | header :: rest =>
    (parseRows (rest.filter (fun l => l ≠ []))).map
      (fun rs => ((splitOnChar (Char.ofNat 44) header).map String.mk, rs))

/-- Whether `sub` is an initial segment of `l` (character lists). -/
def charsPre : List Char → List Char → Bool
  | [], _ => true
  | _ :: _, [] => false
  | a :: as, b :: bs => a == b && charsPre as bs

/-- Whether `sub` occurs contiguously inside `l` (character lists). -/
def charsSub (sub : List Char) : List Char → Bool
  | [] => charsPre sub []
  | b :: bs => charsPre sub (b :: bs) || charsSub sub bs

/-- Whether the string `sub` occurs inside the string `s`. -/
def strContainsSub (s sub : String) : Bool := charsSub sub.data s.data

/-- Lexicographic strict order on character lists (ASCII). -/
def charsLt : List Char → List Char → Bool
  | [], [] => false
  | [], _ :: _ => true
  | _ :: _, [] => false
  | a :: as, b :: bs => a < b || (a == b && charsLt as bs)

/-- Lexicographic strict order on strings, as Python compares the
`YYYY-MM` period strings. -/
def strLtB (s t : String) : Bool := charsLt s.data t.data

/-- Periods strictly ascending along the series — hence sorted in
ascending order and pairwise distinct, the series invariant the spec
claims. -/
def periodsSortedDistinct : List VolumeRecord → Bool
  | [] => true
  | [_] => true
  | x :: y :: t => strLtB x.period y.period && periodsSortedDistinct (y :: t)

/-- A matching row makes the local filter non-empty. -/
theorem localFilter_ne_nil {ds : Dataset} {term : String}
    (h : ∃ r ∈ ds, pyLower r.term = pyLower term) :
    localFilter ds term ≠ [] := by
  obtain ⟨r, hr, hm⟩ := h
  intro hnil
  have hmem : r ∈ localFilter ds term := mem_localFilter.mpr ⟨hr, hm⟩
  rw [hnil] at hmem
  exact (List.not_mem_nil r) hmem

/-- A failing remote provider always yields a `ProviderError`. -/
theorem remoteLookup_failure_is_error {client : Option Unit}
    {fetch : RemoteOutcome} (term : String)
    (hfail : client = Option.none ∨ ∃ e, fetch = RemoteOutcome.failure e) :
    ∃ msg, remoteLookup client fetch term = ResolutionResult.ProviderError msg := by
  rcases hfail with h | ⟨e, he⟩
  · subst h
    exact ⟨_, rfl⟩
  · subst he
    cases client with
    | none => exact ⟨_, rfl⟩
    | some u => exact ⟨_, rfl⟩

set_option maxRecDepth 100000

/-- C1: with provider order [remote, local], a failing remote provider
(client uninitialized or the fetch raised) never prevents the local
fallback: whenever the dataset has a case-insensitive match for the
term, `resolve` returns `Found` with the local series and source tag
`"local"`. -/
theorem C1_remote_failure_never_blocks_local_fallback
    (client : Option Unit) (fetch : RemoteOutcome) (ds : Dataset) (term : String)
    (hfail : client = Option.none ∨ ∃ e, fetch = RemoteOutcome.failure e)
    (hlocal : ∃ r ∈ ds, pyLower r.term = pyLower term) :
    resolve term [remoteLookup client fetch, fun t => localLookup ds t] =
      ResolutionResult.Found (localFilter ds term) "local" := by
  obtain ⟨msg, hmsg⟩ := remoteLookup_failure_is_error term hfail
  have hloc := localLookup_found (localFilter_ne_nil hlocal)
  simp [resolve, hmsg, hloc]

theorem C1_witness :
    resolve "Best Laptops"
        [remoteLookup Option.none (RemoteOutcome.failure "boom"),
         fun t => localLookup sampleDataV3 t] =
      ResolutionResult.Found (localFilter sampleDataV3 "Best Laptops") "local" :=
  C1_remote_failure_never_blocks_local_fallback Option.none
    (RemoteOutcome.failure "boom") sampleDataV3 "Best Laptops" (Or.inl rfl)
    ⟨⟨"best laptops", "2025-01", 120000⟩, by decide, by decide⟩

/-- C2: the upload handler is all-or-nothing.  If a required column is
missing, the dataset is unchanged and the schema error message — which
names every required column — is shown; if all three are present, the
dataset is replaced wholesale by the uploaded rows, so no old row
remains reachable unless it is also a row of the upload. -/
theorem C2_upload_all_or_nothing
    (cur : Dataset) (up : UploadTable) (c : String) (hc : c ∈ requiredColumns) :
    (c ∉ up.columns →
      uploadLoad cur up = (cur, Option.some schemaErrorMsg) ∧
      strContainsSub schemaErrorMsg c = true) ∧
    ((∀ d ∈ requiredColumns, d ∈ up.columns) →
      uploadLoad cur up = (up.rows, Option.none) ∧
      ∀ r ∈ cur, r ∉ up.rows → r ∉ (uploadLoad cur up).1) := by
  constructor
  · intro hmiss
    have hall : ¬ (requiredColumns.all (fun d => decide (d ∈ up.columns)) = true) := by
      simp only [List.all_eq_true, decide_eq_true_eq]
      intro h
      exact hmiss (h c hc)
    constructor
    · unfold uploadLoad
      rw [if_neg hall]
    · fin_cases hc <;> decide
  · intro hallp
    have hall : requiredColumns.all (fun d => decide (d ∈ up.columns)) = true := by
      simp only [List.all_eq_true, decide_eq_true_eq]
      exact hallp
    have heq : uploadLoad cur up = (up.rows, Option.none) := by
      unfold uploadLoad
      rw [if_pos hall]
    refine ⟨heq, ?_⟩
    intro r hr hnr
    rw [heq]
    exact hnr

theorem C2_witness :
    uploadLoad sampleDataV2 ⟨["Search Term", "Search Volume"], []⟩ =
      (sampleDataV2, Option.some schemaErrorMsg) ∧
    strContainsSub schemaErrorMsg "Month" = true :=
  (C2_upload_all_or_nothing sampleDataV2 ⟨["Search Term", "Search Volume"], []⟩
    "Month" (by decide)).1 (by decide)

/-- C3: every failure mode of the remote lookup — uninitialized client
or an exception raised by the fetch — is converted into a
`ProviderError` result; `remoteLookup` is a total function into
`ResolutionResult`, so no fault escapes to the caller. -/
theorem C3_remote_failures_become_provider_error
    (client : Option Unit) (fetch : RemoteOutcome) (term : String)
    (hfail : client = Option.none ∨ ∃ e, fetch = RemoteOutcome.failure e) :
    ∃ msg, remoteLookup client fetch term = ResolutionResult.ProviderError msg :=
  remoteLookup_failure_is_error term hfail

theorem C3_witness :
    ∃ msg, remoteLookup Option.none (RemoteOutcome.failure "timeout") "best laptops" =
      ResolutionResult.ProviderError msg :=
  C3_remote_failures_become_provider_error Option.none
    (RemoteOutcome.failure "timeout") "best laptops" (Or.inl rfl)

/-- C4, counterexample: the local filter preserves dataframe row order
and never sorts or deduplicates, so a dataset whose matching rows are
out of period order (with a repeated period) yields a `Found` series
whose periods are neither ascending nor pairwise distinct. -/
theorem C4_counterexample_series_not_sorted :
    localLookup [⟨"a", "2025-02", 1⟩, ⟨"a", "2025-01", 2⟩, ⟨"a", "2025-01", 3⟩] "a" =
      ResolutionResult.Found
        [⟨"a", "2025-02", 1⟩, ⟨"a", "2025-01", 2⟩, ⟨"a", "2025-01", 3⟩] "local" ∧
    periodsSortedDistinct
      [⟨"a", "2025-02", 1⟩, ⟨"a", "2025-01", 2⟩, ⟨"a", "2025-01", 3⟩] = false := by
  decide

/-- C4, amended: for every term with a case-insensitive match in the
dataset, the local lookup returns `Found` with the series of matching
rows; every record of that series matches the query up to lowercasing,
and the series is a subsequence of the dataset (rows kept in dataset
order — no sort and no dedup is applied, so its periods are ascending
and distinct only when the dataset's matching rows already are). -/
theorem C4_local_found_matches_in_dataset_order
    (ds : Dataset) (term : String)
    (h : ∃ r ∈ ds, pyLower r.term = pyLower term) :
    localLookup ds term = ResolutionResult.Found (localFilter ds term) "local" ∧
    (∀ r ∈ localFilter ds term, pyLower r.term = pyLower term) ∧
    (localFilter ds term).Sublist ds := by
  refine ⟨localLookup_found (localFilter_ne_nil h), ?_, ?_⟩
  · intro r hr
    exact (mem_localFilter.mp hr).2
  · unfold localFilter
    exact List.filter_sublist ds

theorem C4_witness :
    localLookup sampleDataV2 "Best Laptops" =
      ResolutionResult.Found (localFilter sampleDataV2 "Best Laptops") "local" ∧
    (∀ r ∈ localFilter sampleDataV2 "Best Laptops",
      pyLower r.term = pyLower "Best Laptops") ∧
    (localFilter sampleDataV2 "Best Laptops").Sublist sampleDataV2 :=
  C4_local_found_matches_in_dataset_order sampleDataV2 "Best Laptops"
    ⟨⟨"best laptops", "2025-01", 120000⟩, by decide, by decide⟩

/-- C5: a term with no case-insensitive match yields `NotFound`, and the
local lookup has no failure path at all: it never returns
`ProviderError` for any dataset and term. -/
theorem C5_absent_term_notfound_never_error
    (ds : Dataset) (term : String)
    (h : ∀ r ∈ ds, pyLower r.term ≠ pyLower term) :
    localLookup ds term = ResolutionResult.NotFound ∧
    ∀ ds2 t2 msg, localLookup ds2 t2 ≠ ResolutionResult.ProviderError msg := by
  constructor
  · have hnil : localFilter ds term = [] := by
      apply List.filter_eq_nil_iff.mpr
      intro r hr
      simpa using h r hr
    simp [localLookup, hnil]
  · intro ds2 t2 msg
    unfold localLookup
    split <;> simp

theorem C5_witness :
    localLookup sampleDataV2 "quantum computing" = ResolutionResult.NotFound ∧
    ∀ ds2 t2 msg, localLookup ds2 t2 ≠ ResolutionResult.ProviderError msg :=
  C5_absent_term_notfound_never_error sampleDataV2 "quantum computing" (by decide)

/-- C6: a successful remote answer with an empty result set maps to
`NotFound`, and a broken service maps to a `ProviderError`, a distinct
outcome. -/
theorem C6_remote_empty_is_notfound_not_error (cols : List String) (term : String) :
    remoteLookup (Option.some ()) (RemoteOutcome.success ⟨cols, []⟩) term =
      ResolutionResult.NotFound ∧
    ∀ e, ∃ msg,
      remoteLookup (Option.some ()) (RemoteOutcome.failure e) term =
        ResolutionResult.ProviderError msg ∧
      ResolutionResult.ProviderError msg ≠ ResolutionResult.NotFound := by
  constructor
  · simp [remoteLookup]
  · intro e
    exact ⟨_, rfl, by simp⟩

/-- C7, counterexample: a corrupt persistence file raises an exception
other than `FileNotFoundError`; the startup `try` does not catch it, so
the render aborts instead of falling back to the sample data with a
warning. -/
theorem C7_counterexample_corrupt_not_caught :
    startupLoad sampleDataV2 (ReadCsvOutcome.otherError "ParserError: bad line") =
      StartupResult.crashed "ParserError: bad line" ∧
    startupLoad sampleDataV2 (ReadCsvOutcome.otherError "ParserError: bad line") ≠
      StartupResult.loaded sampleDataV2 true := by
  decide

/-- C7, amended: at startup an absent persistence file
(`FileNotFoundError`) falls back to the in-memory sample data with a
user-visible warning; any other read failure (e.g. a corrupt file's
parse error) is not caught and aborts the render; a successful read
loads the file without a warning. -/
theorem C7_startup_fallback_only_on_missing_file (sample : Dataset) (e : String) :
    startupLoad sample ReadCsvOutcome.fileNotFound = StartupResult.loaded sample true ∧
    startupLoad sample (ReadCsvOutcome.otherError e) = StartupResult.crashed e ∧
    ∀ t, startupLoad sample (ReadCsvOutcome.ok t) = StartupResult.loaded t false :=
  ⟨rfl, rfl, fun _ => rfl⟩

/-- C8: writing the sample dataset to the persistence CSV and reading it
back is the identity — the parsed table has the same column order and
exactly the written rows, for both the v2 and the v3 sample data. -/
theorem C8_csv_roundtrip_sample :
    parseCsv (toCsv sampleDataV2) = Option.some (requiredColumns, sampleDataV2) ∧
    parseCsv (toCsv sampleDataV3) = Option.some (requiredColumns, sampleDataV3) := by
  constructor <;> decide

/-- C9: matching lowercases both sides, so two dataset rows whose terms
differ only in letter case are both returned by one lookup, and every
record of a returned series is guaranteed to match the query only up to
case, not by exact string equality. -/
theorem C9_case_variants_collected_together
    (ds : Dataset) (q : String) (r1 r2 : VolumeRecord)
    (h1 : r1 ∈ ds) (h2 : r2 ∈ ds)
    (e1 : pyLower r1.term = pyLower q) (e2 : pyLower r2.term = pyLower q) :
    localLookup ds q = ResolutionResult.Found (localFilter ds q) "local" ∧
    r1 ∈ localFilter ds q ∧ r2 ∈ localFilter ds q ∧
    ∀ r ∈ localFilter ds q, pyLower r.term = pyLower q := by
  refine ⟨localLookup_found (localFilter_ne_nil ⟨r1, h1, e1⟩),
    mem_localFilter.mpr ⟨h1, e1⟩, mem_localFilter.mpr ⟨h2, e2⟩, ?_⟩
  intro r hr
  exact (mem_localFilter.mp hr).2

theorem C9_witness :
    localLookup [⟨"Best Laptops", "2025-01", 111⟩, ⟨"best laptops", "2025-02", 222⟩]
        "BEST laptops" =
      ResolutionResult.Found
        (localFilter [⟨"Best Laptops", "2025-01", 111⟩, ⟨"best laptops", "2025-02", 222⟩]
          "BEST laptops") "local" ∧
    (⟨"Best Laptops", "2025-01", 111⟩ : VolumeRecord) ∈
      localFilter [⟨"Best Laptops", "2025-01", 111⟩, ⟨"best laptops", "2025-02", 222⟩]
        "BEST laptops" ∧
    (⟨"best laptops", "2025-02", 222⟩ : VolumeRecord) ∈
      localFilter [⟨"Best Laptops", "2025-01", 111⟩, ⟨"best laptops", "2025-02", 222⟩]
        "BEST laptops" ∧
    ∀ r ∈ localFilter [⟨"Best Laptops", "2025-01", 111⟩, ⟨"best laptops", "2025-02", 222⟩]
        "BEST laptops", pyLower r.term = pyLower "BEST laptops" :=
  C9_case_variants_collected_together
    [⟨"Best Laptops", "2025-01", 111⟩, ⟨"best laptops", "2025-02", 222⟩] "BEST laptops"
    ⟨"Best Laptops", "2025-01", 111⟩ ⟨"best laptops", "2025-02", 222⟩
    (by decide) (by decide) (by decide) (by decide)

/-- C10: within one render pass the displayed series is computed from
the dataset as it stood at the start of the pass, whatever the upload
section later does; a schema-valid upload replaces the dataset variable
only after the chart section, so it is visible only to a later pass. -/
theorem C10_render_pass_uses_start_of_pass_dataset
    (ds0 : Dataset) (term : String) (up : UploadTable)
    (hcols : ∀ c ∈ requiredColumns, c ∈ up.columns) :
    (∀ upl : Option UploadTable,
      (v2RenderPass ds0 term upl).1 = localLookup ds0 term) ∧
    (v2RenderPass ds0 term (Option.some up)).2 = up.rows := by
  constructor
  · intro upl
    cases upl <;> rfl
  · have hall : requiredColumns.all (fun d => decide (d ∈ up.columns)) = true := by
      simp only [List.all_eq_true, decide_eq_true_eq]
      exact hcols
    show (uploadLoad ds0 up).1 = up.rows
    unfold uploadLoad
    rw [if_pos hall]

theorem C10_witness :
    (∀ upl : Option UploadTable,
      (v2RenderPass sampleDataV2 "cheap flights" upl).1 =
        localLookup sampleDataV2 "cheap flights") ∧
    (v2RenderPass sampleDataV2 "cheap flights"
        (Option.some ⟨requiredColumns, [⟨"x", "2025-04", 5⟩]⟩)).2 =
      [⟨"x", "2025-04", 5⟩] :=
  C10_render_pass_uses_start_of_pass_dataset sampleDataV2 "cheap flights"
    ⟨requiredColumns, [⟨"x", "2025-04", 5⟩]⟩ (by decide)
